import Mathlib

/-!
Verification of the ADAM python binding layer
(`src/adam-python/src/bdgenomics/adam/adamContext.py`).

The file under review is a pure delegation proxy: `ADAMContext.__init__`
stores the Spark session handle, dereferences its JVM gateway, constructs
two library-side objects (the scala `ADAMContext` and the
`JavaADAMContext` adapter), and each of the seven load methods forwards
its single path argument to the adapter method of the same name and wraps
the returned handle in a typed proxy.

Shallow embedding choices:
  - External JVM-side objects are opaque handles (`Nat`-tagged structures).
  - The JVM gateway (`sc._jvm`) is a structure of fallible constructor
    functions; the adapter (`JavaADAMContext`) is a structure with one
    fallible method table `call`, indexed by the seven method names.
    Fallibility (`Except JvmError`) models python exceptions raised by the
    delegated py4j calls.
  - Each python method is embedded as a function that returns the result,
    the list of delegated adapter calls it performed (so that "exactly one
    delegated call with exactly this path" is statable), and the object
    state after the call (so that absence of mutation is statable: a
    python method could reassign `self._sc` etc.; the embedding of a
    method returns the `self` it finishes with).
  - The external Spark session handle carries an observable `stopped`
    flag so that "never stops or closes the session" is statable.
-/

/-- Opaque handle to a JVM-side distributed collection (a java RDD). -/
structure JavaRDD where
  id : Nat
deriving DecidableEq, Repr

/-- A python exception raised by a delegated py4j call. -/
structure JvmError where
  msg : String
deriving DecidableEq, Repr

/-- Opaque handle to the scala SparkContext, `sc._jsc.sc()`. -/
structure ScalaSparkContext where
  id : Nat
deriving DecidableEq, Repr

/-- Opaque handle to the java SparkContext `sc._jsc`; its method `sc()`
returns the underlying scala SparkContext. -/
structure JavaSparkContext where
  sc : ScalaSparkContext
deriving DecidableEq, Repr

/-- Opaque handle to the JVM-side scala `org.bdgenomics.adam.rdd.ADAMContext`. -/
structure ScalaADAMContext where
  id : Nat
deriving DecidableEq, Repr

/-- The seven adapter method names; the python entry points and the
`JavaADAMContext` adapter methods they delegate to share these names. -/
inductive LoadMethod where
  | loadAlignments
  | loadCoverage
  | loadContigFragments
  | loadFragments
  | loadFeatures
  | loadGenotypes
  | loadVariants
deriving DecidableEq, Repr

/-- A record of one delegated adapter call: the adapter method invoked and
the single value passed to it. -/
structure DelegatedCall where
  method : LoadMethod
  path : String
deriving DecidableEq, Repr

/-- The JVM-side `org.bdgenomics.adam.api.java.JavaADAMContext` adapter,
modelled by its behaviour: a fallible method table indexed by the seven
method names. -/
structure JavaADAMContext where
  call : LoadMethod → String → Except JvmError JavaRDD

/-- The JVM gateway reached through `sc._jvm`, modelled by the two
library-side constructions `__init__` performs through it. Each may raise. -/
structure Jvm where
  adamContext : ScalaSparkContext → Except JvmError ScalaADAMContext
  javaADAMContext : ScalaADAMContext → Except JvmError JavaADAMContext

/-- The caller-owned pyspark SparkContext session handle, modelled
abstractly: its JVM gateway `_jvm`, its java context `_jsc`, and an
observable `stopped` flag (whether `sc.stop()` has been called). -/
structure SparkContext where
  jvm : Jvm
  jsc : JavaSparkContext
  stopped : Bool

/-- The state of a python `ADAMContext` object: `self._sc`, `self._jvm`
and `self.__jac` as assigned by `__init__`. -/
structure ADAMContext where
  sc : SparkContext
  jvm : Jvm
  jac : JavaADAMContext

/-- Embeds `ADAMContext.__init__(self, sc)`: store `sc` and `sc._jvm`,
construct `c = self._jvm.org.bdgenomics.adam.rdd.ADAMContext(sc._jsc.sc())`,
then `self.__jac = self._jvm...JavaADAMContext(c)`. A python exception in
either construction aborts `__init__`, so no object is produced. -/
def ADAMContext.init (sc : SparkContext) : Except JvmError ADAMContext :=
  match sc.jvm.adamContext sc.jsc.sc with
  | .error e => .error e
  | .ok c =>
    match sc.jvm.javaADAMContext c with
    | .error e => .error e
    | .ok jac => .ok { sc := sc, jvm := sc.jvm, jac := jac }

/-- Modelled from the spec: the typed proxy classes (`AlignmentRecordRDD`
and the six below) live in `bdgenomics.adam.rdd`, which is not part of the
reviewed source; per the spec each is "a typed proxy wrapping whatever
distributed-collection handle the delegated call produces" together with
the session handle, so each constructor stores its two arguments
unchanged. -/
structure AlignmentRecordRDD where
  jrdd : JavaRDD
  sc : SparkContext

/-- Modelled from the spec: typed proxy for coverage, see `AlignmentRecordRDD`. -/
structure CoverageRDD where
  jrdd : JavaRDD
  sc : SparkContext

/-- Modelled from the spec: typed proxy for contig fragments. -/
structure NucleotideContigFragmentRDD where
  jrdd : JavaRDD
  sc : SparkContext

/-- Modelled from the spec: typed proxy for fragments. -/
structure FragmentRDD where
  jrdd : JavaRDD
  sc : SparkContext

/-- Modelled from the spec: typed proxy for features. -/
structure FeatureRDD where
  jrdd : JavaRDD
  sc : SparkContext

/-- Modelled from the spec: typed proxy for genotypes. -/
structure GenotypeRDD where
  jrdd : JavaRDD
  sc : SparkContext

/-- Modelled from the spec: typed proxy for variants. -/
structure VariantRDD where
  jrdd : JavaRDD
  sc : SparkContext

/-- Embeds `loadAlignments`: `adamRdd = self.__jac.loadAlignments(filePath);
return AlignmentRecordRDD(adamRdd, self._sc)`. Returns the result (or the
propagated exception), the delegated calls performed, and the object state
after the call. -/
def ADAMContext.loadAlignments (self : ADAMContext) (filePath : String) :
    Except JvmError AlignmentRecordRDD × List DelegatedCall × ADAMContext :=
  (Except.map (fun adamRdd => AlignmentRecordRDD.mk adamRdd self.sc)
      (self.jac.call .loadAlignments filePath),
   [⟨.loadAlignments, filePath⟩], self)

/-- Embeds `loadCoverage`: `adamRdd = self.__jac.loadCoverage(filePath);
return CoverageRDD(adamRdd, self._sc)`. -/
def ADAMContext.loadCoverage (self : ADAMContext) (filePath : String) :
    Except JvmError CoverageRDD × List DelegatedCall × ADAMContext :=
  (Except.map (fun adamRdd => CoverageRDD.mk adamRdd self.sc)
      (self.jac.call .loadCoverage filePath),
   [⟨.loadCoverage, filePath⟩], self)

/-- Embeds `loadContigFragments`. -/
def ADAMContext.loadContigFragments (self : ADAMContext) (filePath : String) :
    Except JvmError NucleotideContigFragmentRDD × List DelegatedCall × ADAMContext :=
  (Except.map (fun adamRdd => NucleotideContigFragmentRDD.mk adamRdd self.sc)
      (self.jac.call .loadContigFragments filePath),
   [⟨.loadContigFragments, filePath⟩], self)

/-- Embeds `loadFragments`. -/
def ADAMContext.loadFragments (self : ADAMContext) (filePath : String) :
    Except JvmError FragmentRDD × List DelegatedCall × ADAMContext :=
  (Except.map (fun adamRdd => FragmentRDD.mk adamRdd self.sc)
      (self.jac.call .loadFragments filePath),
   [⟨.loadFragments, filePath⟩], self)

/-- Embeds `loadFeatures`. -/
def ADAMContext.loadFeatures (self : ADAMContext) (filePath : String) :
    Except JvmError FeatureRDD × List DelegatedCall × ADAMContext :=
  (Except.map (fun adamRdd => FeatureRDD.mk adamRdd self.sc)
      (self.jac.call .loadFeatures filePath),
   [⟨.loadFeatures, filePath⟩], self)

/-- Embeds `loadGenotypes`. -/
def ADAMContext.loadGenotypes (self : ADAMContext) (filePath : String) :
    Except JvmError GenotypeRDD × List DelegatedCall × ADAMContext :=
  (Except.map (fun adamRdd => GenotypeRDD.mk adamRdd self.sc)
      (self.jac.call .loadGenotypes filePath),
   [⟨.loadGenotypes, filePath⟩], self)

/-- Embeds `loadVariants`. -/
def ADAMContext.loadVariants (self : ADAMContext) (filePath : String) :
    Except JvmError VariantRDD × List DelegatedCall × ADAMContext :=
  (Except.map (fun adamRdd => VariantRDD.mk adamRdd self.sc)
      (self.jac.call .loadVariants filePath),
   [⟨.loadVariants, filePath⟩], self)

/-- The kinds of typed proxies, one per entry point. -/
inductive ProxyKind where
  | alignmentRecordRDD
  | coverageRDD
  | nucleotideContigFragmentRDD
  | fragmentRDD
  | featureRDD
  | genotypeRDD
  | variantRDD
deriving DecidableEq, Repr

/-- Sum of the seven typed proxies, for statements quantified over all
entry points. -/
inductive AnyProxy where
  | alignments : AlignmentRecordRDD → AnyProxy
  | coverage : CoverageRDD → AnyProxy
  | contigFragments : NucleotideContigFragmentRDD → AnyProxy
  | fragments : FragmentRDD → AnyProxy
  | features : FeatureRDD → AnyProxy
  | genotypes : GenotypeRDD → AnyProxy
  | variants : VariantRDD → AnyProxy

/-- The kind of a proxy. -/
def AnyProxy.kind : AnyProxy → ProxyKind
  | .alignments _ => .alignmentRecordRDD
  | .coverage _ => .coverageRDD
  | .contigFragments _ => .nucleotideContigFragmentRDD
  | .fragments _ => .fragmentRDD
  | .features _ => .featureRDD
  | .genotypes _ => .genotypeRDD
  | .variants _ => .variantRDD

/-- The distributed-collection handle wrapped in a proxy. -/
def AnyProxy.jrdd : AnyProxy → JavaRDD
  | .alignments r => r.jrdd
  | .coverage r => r.jrdd
  | .contigFragments r => r.jrdd
  | .fragments r => r.jrdd
  | .features r => r.jrdd
  | .genotypes r => r.jrdd
  | .variants r => r.jrdd

/-- The session handle carried by a proxy. -/
def AnyProxy.sc : AnyProxy → SparkContext
  | .alignments r => r.sc
  | .coverage r => r.sc
  | .contigFragments r => r.sc
  | .fragments r => r.sc
  | .features r => r.sc
  | .genotypes r => r.sc
  | .variants r => r.sc

/-- The typed proxy each entry point returns. -/
def proxyKindOf : LoadMethod → ProxyKind
  | .loadAlignments => .alignmentRecordRDD
  | .loadCoverage => .coverageRDD
  | .loadContigFragments => .nucleotideContigFragmentRDD
  | .loadFragments => .fragmentRDD
  | .loadFeatures => .featureRDD
  | .loadGenotypes => .genotypeRDD
  | .loadVariants => .variantRDD

/-- Dispatcher over the seven entry points, each defined above directly
from the source; results are injected into `AnyProxy` so that claims can
quantify over the whole public surface. -/
def ADAMContext.load (self : ADAMContext) (e : LoadMethod) (filePath : String) :
    Except JvmError AnyProxy × List DelegatedCall × ADAMContext :=
  match e with
  | .loadAlignments =>
    let r := self.loadAlignments filePath
    (Except.map AnyProxy.alignments r.1, r.2.1, r.2.2)
  | .loadCoverage =>
    let r := self.loadCoverage filePath
    (Except.map AnyProxy.coverage r.1, r.2.1, r.2.2)
  | .loadContigFragments =>
    let r := self.loadContigFragments filePath
    (Except.map AnyProxy.contigFragments r.1, r.2.1, r.2.2)
  | .loadFragments =>
    let r := self.loadFragments filePath
    (Except.map AnyProxy.fragments r.1, r.2.1, r.2.2)
  | .loadFeatures =>
    let r := self.loadFeatures filePath
    (Except.map AnyProxy.features r.1, r.2.1, r.2.2)
  | .loadGenotypes =>
    let r := self.loadGenotypes filePath
    (Except.map AnyProxy.genotypes r.1, r.2.1, r.2.2)
  | .loadVariants =>
    let r := self.loadVariants filePath
    (Except.map AnyProxy.variants r.1, r.2.1, r.2.2)

/-- The seven entry points, listed. -/
def allLoadMethods : List LoadMethod :=
  [.loadAlignments, .loadCoverage, .loadContigFragments, .loadFragments,
   .loadFeatures, .loadGenotypes, .loadVariants]

/-- Builds the typed proxy an entry point returns, injected into `AnyProxy`. -/
def mkProxy (e : LoadMethod) (jrdd : JavaRDD) (sc : SparkContext) : AnyProxy :=
  match e with
  | .loadAlignments => .alignments ⟨jrdd, sc⟩
  | .loadCoverage => .coverage ⟨jrdd, sc⟩
  | .loadContigFragments => .contigFragments ⟨jrdd, sc⟩
  | .loadFragments => .fragments ⟨jrdd, sc⟩
  | .loadFeatures => .features ⟨jrdd, sc⟩
  | .loadGenotypes => .genotypes ⟨jrdd, sc⟩
  | .loadVariants => .variants ⟨jrdd, sc⟩

lemma exceptMap_map {ε α β γ : Type} (f : α → β) (g : β → γ) (x : Except ε α) :
    Except.map g (Except.map f x) = Except.map (fun a => g (f a)) x := by
  cases x <;> rfl

lemma mkProxy_jrdd (e : LoadMethod) (j : JavaRDD) (s : SparkContext) :
    (mkProxy e j s).jrdd = j := by
  cases e <;> rfl

lemma mkProxy_sc (e : LoadMethod) (j : JavaRDD) (s : SparkContext) :
    (mkProxy e j s).sc = s := by
  cases e <;> rfl

lemma mkProxy_kind (e : LoadMethod) (j : JavaRDD) (s : SparkContext) :
    (mkProxy e j s).kind = proxyKindOf e := by
  cases e <;> rfl

lemma load_eq (ctx : ADAMContext) (e : LoadMethod) (p : String) :
    ADAMContext.load ctx e p =
      (Except.map (fun j => mkProxy e j ctx.sc) (ctx.jac.call e p),
       [⟨e, p⟩], ctx) := by
  cases e <;>
    simp [ADAMContext.load, ADAMContext.loadAlignments, ADAMContext.loadCoverage,
      ADAMContext.loadContigFragments, ADAMContext.loadFragments,
      ADAMContext.loadFeatures, ADAMContext.loadGenotypes, ADAMContext.loadVariants,
      mkProxy, exceptMap_map]

lemma init_ok_sc {sc : SparkContext} {ctx : ADAMContext}
    (h : ADAMContext.init sc = .ok ctx) : ctx.sc = sc := by
  unfold ADAMContext.init at h
  split at h
  · exact absurd h (by simp)
  · split at h
    · exact absurd h (by simp)
    · cases h; rfl

/-- Concrete adapter whose calls succeed, for witnesses. -/
def testJac : JavaADAMContext := ⟨fun _ p => .ok ⟨p.length⟩⟩

/-- Concrete JVM gateway whose constructions succeed, for witnesses. -/
def testJvm : Jvm := ⟨fun s => .ok ⟨s.id⟩, fun _ => .ok testJac⟩

/-- Concrete session handle, for witnesses. -/
def testSc : SparkContext := ⟨testJvm, ⟨⟨5⟩⟩, false⟩

/-- Concrete context proxy state, as produced by `ADAMContext.init testSc`. -/
def testCtx : ADAMContext := ⟨testSc, testJvm, testJac⟩

/-- Concrete adapter whose calls all fail, for error-propagation witnesses. -/
def failJac : JavaADAMContext := ⟨fun _ _ => .error ⟨"io error"⟩⟩

/-- Context whose adapter fails, for error-propagation witnesses. -/
def failCtx : ADAMContext := ⟨testSc, testJvm, failJac⟩

/-- JVM gateway whose first library-side construction fails. -/
def failJvm1 : Jvm := ⟨fun _ => .error ⟨"no gateway"⟩, fun _ => .ok testJac⟩

/-- Session handle over `failJvm1`. -/
def failSc1 : SparkContext := ⟨failJvm1, ⟨⟨5⟩⟩, false⟩

/-- JVM gateway whose second library-side construction fails. -/
def failJvm2 : Jvm := ⟨fun s => .ok ⟨s.id⟩, fun _ => .error ⟨"no adapter"⟩⟩

/-- Session handle over `failJvm2`. -/
def failSc2 : SparkContext := ⟨failJvm2, ⟨⟨5⟩⟩, false⟩

/-- JVM gateway differing from `testJvm`, for the independence witness. -/
def otherJvm : Jvm := ⟨fun _ => .error ⟨"other"⟩, fun _ => .error ⟨"other"⟩⟩

/-- Context sharing `testCtx`'s session handle and adapter but not its
runtime entry point, for the independence witness. -/
def testCtx2 : ADAMContext := ⟨testSc, otherJvm, testJac⟩

/-- Claim C1: for every one of the seven entry points and every path
string p, invoking the entry point with p performs exactly one call to the
adapter method of the same name, passing exactly p and no other value. -/
theorem load_delegates_exactly_once (ctx : ADAMContext) (e : LoadMethod) (p : String) :
    (ADAMContext.load ctx e p).2.1 = [⟨e, p⟩] := by
  rw [load_eq]

/-- Claim C2: for every entry point and path, the handle wrapped inside
the returned typed proxy is exactly the value the delegated adapter call
produced, with no transformation applied in this layer. -/
theorem load_wraps_delegated_handle (ctx : ADAMContext) (e : LoadMethod) (p : String)
    (r : AnyProxy) (h : (ADAMContext.load ctx e p).1 = .ok r) :
    ctx.jac.call e p = .ok r.jrdd := by
  have h2 : Except.map (fun j => mkProxy e j ctx.sc) (ctx.jac.call e p) = .ok r := by
    rw [← h, load_eq]
  rcases hc : ctx.jac.call e p with err | a
  · rw [hc] at h2
    exact absurd h2 (by simp [Except.map])
  · rw [hc] at h2
    have hm : mkProxy e a ctx.sc = r := by simpa [Except.map] using h2
    rw [← hm, mkProxy_jrdd]

/-- Closed witness for C2 at a concrete context and path. -/
theorem load_wraps_delegated_handle_witness :
    (ADAMContext.load testCtx .loadVariants "a.vcf").1 =
      .ok (AnyProxy.variants ⟨⟨5⟩, testSc⟩) ∧
    testCtx.jac.call .loadVariants "a.vcf" =
      .ok (AnyProxy.variants ⟨⟨5⟩, testSc⟩).jrdd :=
  ⟨rfl, load_wraps_delegated_handle testCtx .loadVariants "a.vcf"
    (AnyProxy.variants ⟨⟨5⟩, testSc⟩) rfl⟩

/-- Claim C3: the public surface is exactly the seven loading entry
points, each taking one file path string and each returning its own typed
collection proxy (AlignmentRecordRDD, CoverageRDD,
NucleotideContigFragmentRDD, FragmentRDD, FeatureRDD, GenotypeRDD,
VariantRDD respectively). -/
theorem public_surface_seven_typed_entry_points :
    allLoadMethods.length = 7 ∧ allLoadMethods.Nodup ∧
    (∀ e : LoadMethod, e ∈ allLoadMethods) ∧
    (∀ (ctx : ADAMContext) (e : LoadMethod) (p : String) (r : AnyProxy),
      (ADAMContext.load ctx e p).1 = .ok r → r.kind = proxyKindOf e) := by
  refine ⟨rfl, by decide, fun e => by cases e <;> simp [allLoadMethods], ?_⟩
  intro ctx e p r h
  have h2 : Except.map (fun j => mkProxy e j ctx.sc) (ctx.jac.call e p) = .ok r := by
    rw [← h, load_eq]
  rcases hc : ctx.jac.call e p with err | a
  · rw [hc] at h2
    exact absurd h2 (by simp [Except.map])
  · rw [hc] at h2
    have hm : mkProxy e a ctx.sc = r := by simpa [Except.map] using h2
    rw [← hm, mkProxy_kind]

/-- Closed witness for C3 at a concrete context and path. -/
theorem public_surface_witness :
    (ADAMContext.load testCtx .loadAlignments "x").1 =
      .ok (AnyProxy.alignments ⟨⟨1⟩, testSc⟩) ∧
    (AnyProxy.alignments ⟨⟨1⟩, testSc⟩).kind = proxyKindOf .loadAlignments :=
  ⟨rfl, public_surface_seven_typed_entry_points.2.2.2 testCtx .loadAlignments "x"
    (AnyProxy.alignments ⟨⟨1⟩, testSc⟩) rfl⟩

/-- Claim C4: if the delegated adapter call fails, the entry point
propagates that same failure unchanged; the path is delegated without any
local validation (the delegated call is still made, with exactly the given
path) and no recovery, retry or translation is applied. -/
theorem load_propagates_delegated_failure (ctx : ADAMContext) (e : LoadMethod)
    (p : String) (err : JvmError) (h : ctx.jac.call e p = .error err) :
    (ADAMContext.load ctx e p).1 = .error err ∧
    (ADAMContext.load ctx e p).2.1 = [⟨e, p⟩] := by
  constructor
  · rw [load_eq]
    show Except.map (fun j => mkProxy e j ctx.sc) (ctx.jac.call e p) = Except.error err
    rw [h]
    simp [Except.map]
  · rw [load_eq]

/-- Closed witness for C4 at a concrete failing adapter. -/
theorem load_propagates_delegated_failure_witness :
    failCtx.jac.call .loadFeatures "f.bed" = .error ⟨"io error"⟩ ∧
    ((ADAMContext.load failCtx .loadFeatures "f.bed").1 = .error ⟨"io error"⟩ ∧
     (ADAMContext.load failCtx .loadFeatures "f.bed").2.1 = [⟨.loadFeatures, "f.bed"⟩]) :=
  ⟨rfl, load_propagates_delegated_failure failCtx .loadFeatures "f.bed" ⟨"io error"⟩ rfl⟩

/-- Claim C5: no entry point mutates the proxy object state: for every
entry point and path, whether the delegated call succeeds or fails, the
object state after the call equals the state before it — in particular the
session-handle, runtime entry-point and adapter references are unchanged. -/
theorem load_never_mutates_stored_references (ctx : ADAMContext) (e : LoadMethod)
    (p : String) :
    (ADAMContext.load ctx e p).2.2 = ctx ∧
    ((ADAMContext.load ctx e p).2.2).sc = ctx.sc ∧
    ((ADAMContext.load ctx e p).2.2).jvm = ctx.jvm ∧
    ((ADAMContext.load ctx e p).2.2).jac = ctx.jac := by
  rw [load_eq]
  exact ⟨rfl, rfl, rfl, rfl⟩

/-- Claim C6: construction is deterministic in the session handle: two
constructions from the same session handle produce the same result, and in
particular the same derived adapter reference, with no dependence on
hidden global state (construction is a function of the handle alone). -/
theorem init_deterministic_from_session (sc1 sc2 : SparkContext) (h : sc1 = sc2) :
    ADAMContext.init sc1 = ADAMContext.init sc2 ∧
    Except.map ADAMContext.jac (ADAMContext.init sc1) =
      Except.map ADAMContext.jac (ADAMContext.init sc2) := by
  subst h
  exact ⟨rfl, rfl⟩

/-- Closed witness for C6 at a concrete session handle. -/
theorem init_deterministic_witness :
    ADAMContext.init testSc = ADAMContext.init testSc ∧
    Except.map ADAMContext.jac (ADAMContext.init testSc) =
      Except.map ADAMContext.jac (ADAMContext.init testSc) :=
  init_deterministic_from_session testSc testSc rfl

/-- Claim C7: every entry-point call is an independent, stateless
delegation: a call made after any earlier call behaves exactly as it would
on the freshly constructed object, and the result and the delegated call
depend only on the path argument and the construction-time references (the
adapter and the session handle). -/
theorem load_independent_stateless (ctx ctx2 : ADAMContext) (e1 e2 e : LoadMethod)
    (p1 p2 p : String) (hjac : ctx.jac = ctx2.jac) (hsc : ctx.sc = ctx2.sc) :
    ADAMContext.load ((ADAMContext.load ctx e1 p1).2.2) e2 p2 =
      ADAMContext.load ctx e2 p2 ∧
    (ADAMContext.load ctx e p).1 = (ADAMContext.load ctx2 e p).1 ∧
    (ADAMContext.load ctx e p).2.1 = (ADAMContext.load ctx2 e p).2.1 := by
  have hself : (ADAMContext.load ctx e1 p1).2.2 = ctx := by rw [load_eq]
  refine ⟨by rw [hself], ?_, ?_⟩
  · rw [load_eq ctx e p, load_eq ctx2 e p]
    show Except.map (fun j => mkProxy e j ctx.sc) (ctx.jac.call e p) =
      Except.map (fun j => mkProxy e j ctx2.sc) (ctx2.jac.call e p)
    rw [hjac, hsc]
  · rw [load_eq ctx e p, load_eq ctx2 e p]

/-- Closed witness for C7 at concrete contexts sharing adapter and session. -/
theorem load_independent_stateless_witness :
    testCtx.jac = testCtx2.jac ∧ testCtx.sc = testCtx2.sc ∧
    (ADAMContext.load ((ADAMContext.load testCtx .loadCoverage "p1").2.2)
        .loadFeatures "p2" = ADAMContext.load testCtx .loadFeatures "p2" ∧
      (ADAMContext.load testCtx .loadGenotypes "p3").1 =
        (ADAMContext.load testCtx2 .loadGenotypes "p3").1 ∧
      (ADAMContext.load testCtx .loadGenotypes "p3").2.1 =
        (ADAMContext.load testCtx2 .loadGenotypes "p3").2.1) :=
  ⟨rfl, rfl, load_independent_stateless testCtx testCtx2 .loadCoverage .loadFeatures
    .loadGenotypes "p1" "p2" "p3" rfl rfl⟩

/-- Claim C8: the layer only borrows the caller-owned session handle: the
constructor stores the very handle it was given with its observable
stopped state untouched, and no entry point stops, closes or releases the
session handle it holds. -/
theorem layer_never_stops_session (sc : SparkContext) (ctx ctx0 : ADAMContext)
    (e : LoadMethod) (p : String) (h : ADAMContext.init sc = .ok ctx0) :
    ctx0.sc = sc ∧ ctx0.sc.stopped = sc.stopped ∧
    ((ADAMContext.load ctx e p).2.2).sc = ctx.sc ∧
    ((ADAMContext.load ctx e p).2.2).sc.stopped = ctx.sc.stopped := by
  have h1 := init_ok_sc h
  rw [load_eq]
  exact ⟨h1, by rw [h1], rfl, rfl⟩

/-- Closed witness for C8 at a concrete session handle and context. -/
theorem layer_never_stops_session_witness :
    ADAMContext.init testSc = .ok testCtx ∧
    (testCtx.sc = testSc ∧ testCtx.sc.stopped = testSc.stopped ∧
     ((ADAMContext.load testCtx .loadAlignments "w").2.2).sc = testCtx.sc ∧
     ((ADAMContext.load testCtx .loadAlignments "w").2.2).sc.stopped =
       testCtx.sc.stopped) :=
  ⟨rfl, layer_never_stops_session testSc testCtx testCtx .loadAlignments "w" rfl⟩

/-- Claim C9: every typed proxy returned by any entry point carries the
very session handle that was given to the ADAMContext constructor, so all
collection proxies produced by one context share that one session handle. -/
theorem proxies_carry_construction_session (sc0 : SparkContext) (ctx : ADAMContext)
    (e : LoadMethod) (p : String) (r : AnyProxy)
    (hinit : ADAMContext.init sc0 = .ok ctx)
    (hload : (ADAMContext.load ctx e p).1 = .ok r) :
    r.sc = sc0 := by
  have hsc := init_ok_sc hinit
  have h2 : Except.map (fun j => mkProxy e j ctx.sc) (ctx.jac.call e p) = .ok r := by
    rw [← hload, load_eq]
  rcases hc : ctx.jac.call e p with err | a
  · rw [hc] at h2
    exact absurd h2 (by simp [Except.map])
  · rw [hc] at h2
    have hm : mkProxy e a ctx.sc = r := by simpa [Except.map] using h2
    rw [← hm, mkProxy_sc, hsc]

/-- Closed witness for C9 at a concrete construction and load. -/
theorem proxies_carry_construction_session_witness :
    ADAMContext.init testSc = .ok testCtx ∧
    (ADAMContext.load testCtx .loadGenotypes "g.vcf").1 =
      .ok (AnyProxy.genotypes ⟨⟨5⟩, testSc⟩) ∧
    (AnyProxy.genotypes ⟨⟨5⟩, testSc⟩).sc = testSc :=
  ⟨rfl, rfl, proxies_carry_construction_session testSc testCtx .loadGenotypes "g.vcf"
    (AnyProxy.genotypes ⟨⟨5⟩, testSc⟩) rfl rfl⟩

/-- Claim C10: construction is eager: a failure in either of the two
library-side constructions performed through the session handle's JVM
gateway surfaces at construction time and no proxy object is produced;
conversely a successful construction implies both library-side
constructions were performed (never deferred to the first load call). -/
theorem init_eager_raises_at_construction (sc : SparkContext) (err : JvmError) :
    (sc.jvm.adamContext sc.jsc.sc = .error err → ADAMContext.init sc = .error err) ∧
    (∀ c, sc.jvm.adamContext sc.jsc.sc = .ok c →
      sc.jvm.javaADAMContext c = .error err → ADAMContext.init sc = .error err) ∧
    (∀ ctx, ADAMContext.init sc = .ok ctx →
      ∃ c, sc.jvm.adamContext sc.jsc.sc = .ok c ∧
        sc.jvm.javaADAMContext c = .ok ctx.jac) := by
  refine ⟨?_, ?_, ?_⟩
  · intro h
    unfold ADAMContext.init
    rw [h]
  · intro c h1 h2
    simp [ADAMContext.init, h1, h2]
  · intro ctx h
    rcases h1 : sc.jvm.adamContext sc.jsc.sc with e1 | c
    · unfold ADAMContext.init at h
      rw [h1] at h
      exact absurd h (by simp)
    · rcases h2 : sc.jvm.javaADAMContext c with e2 | jac
      · simp [ADAMContext.init, h1, h2] at h
      · refine ⟨c, rfl, ?_⟩
        simp [ADAMContext.init, h1, h2] at h
        subst h
        simp [h2]

/-- Closed witness for C10 at session handles whose first or second
library-side construction fails. -/
theorem init_eager_raises_witness :
    failSc1.jvm.adamContext failSc1.jsc.sc = .error ⟨"no gateway"⟩ ∧
    ADAMContext.init failSc1 = .error ⟨"no gateway"⟩ ∧
    failSc2.jvm.javaADAMContext ⟨5⟩ = .error ⟨"no adapter"⟩ ∧
    ADAMContext.init failSc2 = .error ⟨"no adapter"⟩ :=
  ⟨rfl, (init_eager_raises_at_construction failSc1 ⟨"no gateway"⟩).1 rfl, rfl,
   (init_eager_raises_at_construction failSc2 ⟨"no adapter"⟩).2.1 ⟨5⟩ rfl rfl⟩
